import Mathlib

/-!
Shallow embedding of the progress/error/device-classification core of the
donation-cube setup scripts (scripts/setup/builder.py and
scripts/setup/flasher.py).

Text lines are modelled as Lean strings (lists of characters).  The Python
code matches lines with re.search over a small regex subset: literal text,
the dot (any character except newline), the plus quantifier on dot, on a
digit class or on a literal character, and top-level alternation.  The
matcher below implements exactly that subset: a pattern is a list of
alternatives, each alternative a sequence of atoms, and search succeeds
when some suffix of the line has a prefix matching some alternative,
which is precisely the truthiness of re.search.
-/

/-- Atom of the regex subset used by the scripts: a literal character
sequence, a single character satisfying a predicate (the regex dot), or
one-or-more characters satisfying a predicate (dot-plus, digit-plus,
or a repeated literal character). -/
inductive Atom where
  | lit : List Char → Atom
  | one : (Char → Bool) → Atom
  | plus : (Char → Bool) → Atom

/-- Pattern: alternation of sequences of atoms (the only top-level regex
structure the scripts use). -/
abbrev RePattern := List (List Atom)

/-- Predicate for the regex dot: any character except a newline. -/
def any_char (c : Char) : Bool := c != '\n'

/-- Fuel-driven worker for the sequence matcher: every step strictly
decreases the sum of the atom-list length and the input length, so any
fuel of at least that sum plus one yields the untruncated answer. -/
def matchSeqF : Nat → List Atom → List Char → Bool
  | 0, _, _ => false
  | _ + 1, [], _ => true
  | f + 1, Atom.lit [] :: r, s => matchSeqF f r s
  | _ + 1, Atom.lit (_ :: _) :: _, [] => false
  | f + 1, Atom.lit (c :: cs) :: r, d :: s =>
      c == d && matchSeqF f (Atom.lit cs :: r) s
  | _ + 1, Atom.one _ :: _, [] => false
  | f + 1, Atom.one p :: r, c :: s => p c && matchSeqF f r s
  | _ + 1, Atom.plus _ :: _, [] => false
  | f + 1, Atom.plus p :: r, c :: s =>
      p c && (matchSeqF f r s || matchSeqF f (Atom.plus p :: r) s)

/-- Does some prefix of the input match the whole atom sequence? -/
def matchSeq (a : List Atom) (s : List Char) : Bool :=
  matchSeqF (a.length + s.length + 1) a s

/-- Truthiness of re.search: some alternative matches at some position. -/
def reSearch (pat : RePattern) : List Char → Bool
  | [] => pat.any fun q => matchSeq q []
  | c :: s => (pat.any fun q => matchSeq q (c :: s)) || reSearch pat s

/-- Lower-case a line, for searches performed with re.IGNORECASE. -/
def prep_line (line : String) : List Char := line.data.map Char.toLower

/-- Prefix test on character lists (Python str.startswith). -/
def isPfx : List Char → List Char → Bool
  | [], _ => true
  | _ :: _, [] => false
  | c :: cs, d :: ds => c == d && isPfx cs ds

/-- Substring containment (the Python in operator on strings). -/
def containsSub (hay needle : List Char) : Bool :=
  match hay with
  | [] => needle.isEmpty
  | _ :: t => isPfx needle hay || containsSub t needle

/-- Numeric value of a digit string (Python int on the captured digits). -/
def digitsVal (ds : List Char) : Nat :=
  ds.foldl (fun n c => n * 10 + (c.toNat - 48)) 0

/-!
Progress state: the Python dict with keys percentage and stage (an
integer 0-100 in intent, and a stage label).  The updater returns the
new state together with the report sent to the rendering boundary
(show_progress_bar), which the code emits exactly when the percentage
changed.
-/

structure ProgressState where
  percentage : Nat
  stage : String
deriving DecidableEq, Repr

/-- Report to the rendering boundary: the label and percentage passed to
show_progress_bar. -/
abbrev Report := String × Nat

/-! Build progress patterns (BUILD_PATTERNS in builder.py), matched with
re.IGNORECASE, hence written over the lower-cased line.

  dependency: Installing dependencies|Resolving (.+) dependencies
  compiling:  Compiling (.+\.cpp|\.c)|Building (.+)
  linking:    Linking (.+\.elf)|Creating (.+\.bin)
  generating: Successfully created (.+\.bin)|Building (.+\.bin)
  completed:  =+ \[SUCCESS\]|BUILD SUCCESSFUL
-/

def dependency_pattern : RePattern :=
  [[Atom.lit "installing dependencies".data],
   [Atom.lit "resolving ".data, Atom.plus any_char, Atom.lit " dependencies".data]]

def compiling_pattern : RePattern :=
  [[Atom.lit "compiling ".data, Atom.plus any_char, Atom.lit ".cpp".data],
   [Atom.lit "compiling .c".data],
   [Atom.lit "building ".data, Atom.plus any_char]]

def linking_pattern : RePattern :=
  [[Atom.lit "linking ".data, Atom.plus any_char, Atom.lit ".elf".data],
   [Atom.lit "creating ".data, Atom.plus any_char, Atom.lit ".bin".data]]

def generating_pattern : RePattern :=
  [[Atom.lit "successfully created ".data, Atom.plus any_char, Atom.lit ".bin".data],
   [Atom.lit "building ".data, Atom.plus any_char, Atom.lit ".bin".data]]

def completed_pattern : RePattern :=
  [[Atom.plus (fun c => c == '='), Atom.lit " [success]".data],
   [Atom.lit "build successful".data]]

/-- State transition of update_build_progress from builder.py: the
if/elif chain over BUILD_PATTERNS, each branch writing the band clamp
of the old percentage. -/
def build_progress_step (line : String) (progress : ProgressState) :
    ProgressState :=
  let old := progress.percentage
  let lc := prep_line line
  if reSearch dependency_pattern lc then
    ⟨min 15 (old + 2), "Dependencies"⟩
  else if reSearch compiling_pattern lc then
    ⟨max 15 (min 70 (old + 3)), "Compiling"⟩
  else if reSearch linking_pattern lc then
    ⟨max 70 (min 85 (old + 5)), "Linking"⟩
  else if reSearch generating_pattern lc then
    ⟨max 85 (min 95 (old + 5)), "Generating"⟩
  else if reSearch completed_pattern lc then
    ⟨100, "Complete"⟩
  else progress

/-- update_build_progress from builder.py: the state transition above,
followed by the conditional show_progress_bar call (the report to the
rendering boundary) made exactly when the percentage changed, with the
label combining the environment name and the stage. -/
def update_build_progress (line : String) (progress : ProgressState)
    (env_name : String) : ProgressState × Option Report :=
  let p1 := build_progress_step line progress
  (p1, if p1.percentage ≠ progress.percentage
       then some (env_name ++ " - " ++ p1.stage, p1.percentage)
       else none)

/-! Flash progress patterns (FLASH_PATTERNS in flasher.py), matched
case-sensitively (no re.IGNORECASE in update_flash_progress).

  detecting:    Auto-detected: (.+)
  connecting:   Connecting\.\.\.
  chip_info:    Chip is (.+) \(revision (.+)\)
  features:     Features: (.+)          (present in the table, unused)
  erasing:      Flash will be erased from (.+) to (.+)
  writing:      Writing at (.+)\.\.\. \((\d+) %\)
  verification: Hash of data verified
  reset:        Hard resetting via RTS pin
-/

def detecting_pattern : RePattern :=
  [[Atom.lit "Auto-detected: ".data, Atom.plus any_char]]

def connecting_pattern : RePattern :=
  [[Atom.lit "Connecting...".data]]

def chip_info_pattern : RePattern :=
  [[Atom.lit "Chip is ".data, Atom.plus any_char,
    Atom.lit " (revision ".data, Atom.plus any_char, Atom.lit ")".data]]

def features_pattern : RePattern :=
  [[Atom.lit "Features: ".data, Atom.plus any_char]]

def erasing_pattern : RePattern :=
  [[Atom.lit "Flash will be erased from ".data, Atom.plus any_char,
    Atom.lit " to ".data, Atom.plus any_char]]

def writing_pattern : RePattern :=
  [[Atom.lit "Writing at ".data, Atom.plus any_char,
    Atom.lit "... (".data, Atom.plus Char.isDigit, Atom.lit " %)".data]]

def verification_pattern : RePattern :=
  [[Atom.lit "Hash of data verified".data]]

def reset_pattern : RePattern :=
  [[Atom.lit "Hard resetting via RTS pin".data]]

/-- Leftmost capture of the inner search for an open parenthesis,
one-or-more digits, then a space and percent-close (the raw pattern the
writing branch re-searches to read the write percentage); returns the
numeric value of the digits.  Greedy digit capture coincides with the
maximal digit run because the group must be followed by a space. -/
def extractWritePercent : List Char → Option Nat
  | [] => none
  | c :: s =>
    if c == '(' then
      let ds := s.takeWhile Char.isDigit
      if !ds.isEmpty && isPfx " %)".data (s.drop ds.length)
      then some (digitsVal ds)
      else extractWritePercent s
    else extractWritePercent s

/-- State transition of update_flash_progress from flasher.py: the
if/elif chain over FLASH_PATTERNS.  The writing branch re-searches the
line for the embedded percentage N and maps it into the 40-90 band as
40 + int(N * 0.5); multiplying an integer by 0.5 is exact in floating
point and truncation of a non-negative value is floor, so the result is
modelled as 40 + N / 2 on naturals. -/
def flash_progress_step (line : String) (progress : ProgressState) :
    ProgressState :=
  let cs := line.data
  if reSearch detecting_pattern cs then
    ⟨10, "Device detected"⟩
  else if reSearch connecting_pattern cs then
    ⟨20, "Connecting"⟩
  else if reSearch chip_info_pattern cs then
    ⟨30, "Chip identified"⟩
  else if reSearch erasing_pattern cs then
    ⟨40, "Erasing flash"⟩
  else if reSearch writing_pattern cs then
    match extractWritePercent cs with
    | some w => ⟨40 + w / 2, "Writing (" ++ Nat.repr w ++ "%)"⟩
    | none => progress
  else if reSearch verification_pattern cs then
    ⟨95, "Verifying"⟩
  else if reSearch reset_pattern cs then
    ⟨100, "Complete"⟩
  else progress

/-- update_flash_progress from flasher.py: the state transition above,
followed by the conditional show_progress_bar call (the report to the
rendering boundary) made exactly when the percentage changed. -/
def update_flash_progress (line : String) (progress : ProgressState)
    (target_name : String) : ProgressState × Option Report :=
  let p1 := flash_progress_step line progress
  (p1, if p1.percentage ≠ progress.percentage
       then some (target_name ++ " - " ++ p1.stage, p1.percentage)
       else none)

/-!
Error classification (detect_build_errors in builder.py and
detect_flash_errors in flasher.py).  Both scan the buffered output lines
in emission order and, per line, test the signatures in the fixed
insertion order of the pattern dictionary; the first match is returned
as a record of the signature kind, the rendered message, the suggested
solution, and the offending line.  Both tables are searched with
re.IGNORECASE.  Only the two build signatures with a capture group
substitute captured text into the message; the flash messages are
constants.
-/

/-- Case-insensitive prefix test: needle already lower-cased, haystack
compared through Char.toLower. -/
def isPfxCI : List Char → List Char → Bool
  | [], _ => true
  | _ :: _, [] => false
  | c :: cs, d :: ds => c == d.toLower && isPfxCI cs ds

/-- Case-insensitive suffix test (needle already lower-cased). -/
def endsWithCI (needle hay : List Char) : Bool :=
  isPfxCI needle.reverse hay.reverse

/-- Group capture of the compilation-error signature: the regex is the
literal text of an error marker followed by a greedy dot-plus group, so
the group is everything after the leftmost case-insensitive occurrence
of the marker, provided at least one character follows. -/
def group1_error : List Char → Option (List Char)
  | [] => none
  | c :: s =>
    if isPfxCI "error: ".data (c :: s) && !(s.drop 6).isEmpty
    then some (s.drop 6)
    else group1_error s

/-- Greedy split point for the missing-library capture: the largest k
not exceeding the counter such that the first k characters of the body
end in a dot-h suffix (the group, hence k at least 3) and the rest
starts with the no-such-file tail. -/
def fatalK (body : List Char) : Nat → Option Nat
  | 0 => none
  | k + 1 =>
    if 3 ≤ k + 1 && endsWithCI ".h".data (body.take (k + 1))
       && isPfxCI ": no such file".data (body.drop (k + 1))
    then some (k + 1)
    else fatalK body k

/-- Group capture of the missing-library signature: at the leftmost
position where the full pattern matches, the greedy dot-plus group
followed by the literal dot-h, i.e. the longest body prefix that ends in
dot-h and is followed by the no-such-file tail. -/
def group1_fatal : List Char → Option (List Char)
  | [] => none
  | c :: s =>
    if isPfxCI "fatal error: ".data (c :: s) then
      let body := (c :: s).drop 13
      match fatalK body body.length with
      | some k => some (body.take k)
      | none => group1_fatal s
    else group1_fatal s

/-- Diagnosis record returned by the error classifiers (the Python dict
with keys type, message, solution, line; type is renamed etype here). -/
structure ErrorInfo where
  etype : String
  message : String
  solution : String
  line : String
deriving DecidableEq, Repr

/-- Entry of an error-signature table: kind, detection pattern (written
over the lower-cased line), message renderer (capture substitution
happens here), and remediation text. -/
structure ErrorSig where
  etype : String
  pat : RePattern
  message : String → String
  solution : String

/-- Build the diagnosis record for a matched signature and line. -/
def render_error (sig : ErrorSig) (line : String) : ErrorInfo :=
  ⟨sig.etype, sig.message line, sig.solution, line⟩

/-- missing_library entry of ERROR_PATTERNS: fatal error: (.+\.h): No
such file, message substitutes the captured header name. -/
def missing_library_sig : ErrorSig :=
  ⟨"missing_library",
   [[Atom.lit "fatal error: ".data, Atom.plus any_char,
     Atom.lit ".h: no such file".data]],
   fun line => "Missing library: " ++ String.mk ((group1_fatal line.data).getD []),
   "Install required library via PlatformIO"⟩

/-- compilation_error entry of ERROR_PATTERNS: error: (.+), message
substitutes the captured text. -/
def compilation_error_sig : ErrorSig :=
  ⟨"compilation_error",
   [[Atom.lit "error: ".data, Atom.plus any_char]],
   fun line => "Code compilation error: " ++ String.mk ((group1_error line.data).getD []),
   "Fix code errors and try again"⟩

/-- permission_denied entry of ERROR_PATTERNS: Permission denied|Access
is denied, constant message. -/
def permission_denied_sig : ErrorSig :=
  ⟨"permission_denied",
   [[Atom.lit "permission denied".data], [Atom.lit "access is denied".data]],
   fun _ => "Permission denied accessing files",
   "Check file permissions or run with appropriate rights"⟩

/-- ERROR_PATTERNS of builder.py, in dictionary insertion order. -/
def ERROR_PATTERNS : List ErrorSig :=
  [missing_library_sig, compilation_error_sig, permission_denied_sig]

/-- device_not_found entry of FLASH_ERROR_PATTERNS:
serial.serialutil.SerialException|could not open port (the unescaped
dots match any character). -/
def device_not_found_sig : ErrorSig :=
  ⟨"device_not_found",
   [[Atom.lit "serial".data, Atom.one any_char, Atom.lit "serialutil".data,
     Atom.one any_char, Atom.lit "serialexception".data],
    [Atom.lit "could not open port".data]],
   fun _ => "Device connection failed",
   "Check USB connection and device permissions"⟩

/-- connection_timeout entry of FLASH_ERROR_PATTERNS: Failed to
connect|Timed out waiting for packet header. -/
def connection_timeout_sig : ErrorSig :=
  ⟨"connection_timeout",
   [[Atom.lit "failed to connect".data],
    [Atom.lit "timed out waiting for packet header".data]],
   fun _ => "Device connection timeout",
   "Hold BOOT button and try again"⟩

/-- permission_denied entry of FLASH_ERROR_PATTERNS: same pattern as the
build table but with the flash-specific message and remediation. -/
def flash_permission_denied_sig : ErrorSig :=
  ⟨"permission_denied",
   [[Atom.lit "permission denied".data], [Atom.lit "access is denied".data]],
   fun _ => "Permission denied accessing device",
   "Add user to dialout group: sudo usermod -a -G dialout $USER"⟩

/-- FLASH_ERROR_PATTERNS of flasher.py, in dictionary insertion order. -/
def FLASH_ERROR_PATTERNS : List ErrorSig :=
  [device_not_found_sig, connection_timeout_sig, flash_permission_denied_sig]

/-- Inner loop of the detectors: test one line against the signature
table in order; first match wins. -/
def scan_sigs : List ErrorSig → String → Option ErrorInfo
  | [], _ => none
  | sig :: rest, line =>
    if reSearch sig.pat (prep_line line)
    then some (render_error sig line)
    else scan_sigs rest line

/-- Outer loop of the detectors: lines in emission order; the first line
with a matching signature decides. -/
def scan_lines (sigs : List ErrorSig) : List String → Option ErrorInfo
  | [] => none
  | l :: rest =>
    match scan_sigs sigs l with
    | some e => some e
    | none => scan_lines sigs rest

/-- detect_build_errors from builder.py. -/
def detect_build_errors (output_lines : List String) : Option ErrorInfo :=
  scan_lines ERROR_PATTERNS output_lines

/-- detect_flash_errors from flasher.py. -/
def detect_flash_errors (output_lines : List String) : Option ErrorInfo :=
  scan_lines FLASH_ERROR_PATTERNS output_lines

/-!
Device classification (detect_serial_devices in flasher.py).  A raw
enumerated port carries the OS path, description, hardware id and
optional vendor/product ids; the scan first normalises it into the
port_info dict (an empty description is replaced by the text Unknown,
an absent hardware id by the empty string) and then applies three rules
in priority order: vendor-id allow-list, description/hardware-id
substring allow-list, and the path-convention heuristic.
-/

/-- Raw enumerated serial port, as handed over by the OS enumeration
boundary (serial.tools.list_ports.comports()). -/
structure Port where
  device : String
  description : String
  hwid : String
  vid : Option Nat
  pid : Option Nat
deriving DecidableEq, Repr

/-- The port_info dict built for each enumerated port. -/
structure PortInfo where
  port : String
  description : String
  hwid : String
  vid : Option Nat
  pid : Option Nat
deriving DecidableEq, Repr

/-- Normalisation performed in the enumeration loop: a falsy (empty)
description becomes Unknown, a falsy hardware id becomes the empty
string. -/
def port_info_of (p : Port) : PortInfo :=
  ⟨p.device,
   if p.description = "" then "Unknown" else p.description,
   p.hwid, p.vid, p.pid⟩

/-- esp_vendor_ids from flasher.py: Espressif, Silicon Labs, QinHeng,
FTDI, Prolific. -/
def esp_vendor_ids : List Nat := [0x303A, 0x10C4, 0x1A86, 0x0403, 0x067B]

/-- esp_patterns from flasher.py: substrings sought in the lower-cased
description or hardware id. -/
def esp_patterns : List String :=
  ["esp32", "esp8266", "jtag", "debug unit", "cp210x", "ch340", "ch341",
   "ft232", "pl2303", "usb serial", "silicon labs", "prolific", "ftdi",
   "qinheng", "usb-to-serial", "uart", "serial converter", "usb2.0-serial"]

/-- Lower-cased character list of a string (str.lower()). -/
def lowerStr (s : String) : List Char := s.data.map Char.toLower

/-- The is_esp_device decision of detect_serial_devices: vendor-id rule
first (a vid of zero is falsy in Python and is skipped), then the
substring rule over description and hardware id, then the
path-convention rule, which additionally requires usb or serial in the
description or a description different from the n/a placeholder. -/
def is_esp_device (info : PortInfo) : Bool :=
  let dl := lowerStr info.description
  let hl := lowerStr info.hwid
  if (match info.vid with
      | some v => v != 0 && esp_vendor_ids.contains v
      | none => false) then
    true
  else if esp_patterns.any
      (fun pat => containsSub dl pat.data || containsSub hl pat.data) then
    true
  else if isPfx "/dev/ttyUSB".data info.port.data
       || isPfx "/dev/ttyACM".data info.port.data
       || isPfx "COM".data info.port.data then
    containsSub dl "usb".data || containsSub dl "serial".data
      || dl != "n/a".data
  else
    false

/-- detect_serial_devices from flasher.py on a successful enumeration:
the loop appends exactly the normalised ports accepted by
is_esp_device, in enumeration order (the debug listing printed when the
result is empty is observability only). -/
def detect_serial_devices (ports : List Port) : List PortInfo :=
  (ports.map port_info_of).filter is_esp_device

/-!
Operation drivers.  The external process boundary is modelled by an
oracle from the launched command line to the outcome of the whole
supervised run: either an exception (raised while spawning or
supervising) or a normal exit with a return code and the buffered
output lines.  Each driver records the commands it launched, so the
theorems can speak about how often and in which order the external tool
was invoked.
-/

/-- Outcome of one supervised subprocess run. -/
inductive ProcOutcome where
  | exn : ProcOutcome
  | ok : Int → List String → ProcOutcome

/-- Compile command for one environment: pio run -e name. -/
def build_cmd (pio_path : String) (env_name : String) : List String :=
  [pio_path, "run", "-e", env_name]

/-- Upload command for one environment: pio run -e name --target upload. -/
def flash_cmd (pio_path : String) (env_name : String) : List String :=
  [pio_path, "run", "-e", env_name, "--target", "upload"]

/-- Build target entry as parsed from the project configuration. -/
structure Env where
  name : String
  board : String
  platform : String
deriving DecidableEq, Repr

/-- Per-target loop of build_project_with_progress: launch the compile
command, and on a zero return code append the environment to
successful_builds; a non-zero exit consults detect_build_errors for the
displayed diagnosis, an exception is caught and only reported.  Returns
the successful environments and the launched commands, both in loop
order. -/
def build_go (pio_path : String) (exec : List String → ProcOutcome) :
    List Env → List Env × List (List String)
  | [] => ([], [])
  | env :: rest =>
    let launched := build_cmd pio_path env.name
    let tail := build_go pio_path exec rest
    match exec launched with
    | ProcOutcome.ok rc lines =>
      if rc = 0 then (env :: tail.1, launched :: tail.2)
      else
        let _diag := detect_build_errors lines
        (tail.1, launched :: tail.2)
    | ProcOutcome.exn => (tail.1, launched :: tail.2)

/-- build_project_with_progress from builder.py: an empty selection
returns the empty list at once (after a warning) without launching
anything; otherwise the sequential per-target loop runs. -/
def build_project_with_progress (environments : List Env)
    (pio_path : String) (exec : List String → ProcOutcome) :
    List Env × List (List String) :=
  if environments.isEmpty then ([], [])
  else build_go pio_path exec environments

/-- Bounded device-wait loop of wait_for_device_connection: the elapsed
time is modelled by the loop counter t, one time unit per iteration
(the sleep of one second each pass).  Returns whether a device was seen
and how many polls were performed. -/
def wait_loop (scan : Nat → List PortInfo) (timeout : Nat) (t : Nat) :
    Bool × Nat :=
  if h : t < timeout then
    if (scan t).isEmpty then wait_loop scan timeout (t + 1)
    else (true, t + 1)
  else (false, t)
termination_by timeout - t

/-- wait_for_device_connection from flasher.py, default timeout 30; the
scan argument gives the candidate set visible at each poll instant
(detect_serial_devices of the then-visible ports).  On timeout the code
prompts for a manual-flash choice and returns False on every path. -/
def wait_for_device_connection (scan : Nat → List PortInfo)
    (timeout : Nat := 30) : Bool × Nat :=
  wait_loop scan timeout 0

/-- flash_target_with_progress from flasher.py: no selected target
returns False immediately; otherwise the device wait must succeed
before the upload command is launched; a zero return code yields True,
a non-zero one consults detect_flash_errors for the displayed
diagnosis and yields False, and an exception is caught and yields
False.  Returns the outcome, the launched commands, and the number of
device polls performed. -/
def flash_target_with_progress (target_env : Option Env)
    (pio_path : String) (scan : Nat → List PortInfo)
    (exec : List String → ProcOutcome) :
    Bool × List (List String) × Nat :=
  match target_env with
  | none => (false, [], 0)
  | some env =>
    let w := wait_for_device_connection scan
    if w.1 then
      let cmd := flash_cmd pio_path env.name
      match exec cmd with
      | ProcOutcome.ok rc lines =>
        if rc = 0 then (true, [cmd], w.2)
        else
          let _diag := detect_flash_errors lines
          (false, [cmd], w.2)
      | ProcOutcome.exn => (false, [cmd], w.2)
    else (false, [], w.2)

/-!
Helper lemmas shared by the claim theorems below.
-/

/-- The report construction common to both update functions: none
exactly when the percentage is unchanged, and any emitted report
carries the combined label and the new percentage. -/
theorem report_aux (p1 : ProgressState) (old : Nat) (pre : String) :
    ((if p1.percentage ≠ old
      then some (pre ++ " - " ++ p1.stage, p1.percentage)
      else (none : Option Report)) = none ↔ p1.percentage = old)
    ∧ ∀ r : Report,
        (if p1.percentage ≠ old
         then some (pre ++ " - " ++ p1.stage, p1.percentage)
         else (none : Option Report)) = some r →
        r = (pre ++ " - " ++ p1.stage, p1.percentage) := by
  by_cases h : p1.percentage = old <;> simp [h]

/-- Line scan with no matching line anywhere yields no diagnosis. -/
theorem scan_lines_none (sigs : List ErrorSig) :
    ∀ log : List String, (∀ l ∈ log, scan_sigs sigs l = none) →
      scan_lines sigs log = none := by
  intro log
  induction log with
  | nil => intro _; rfl
  | cons a t ih =>
    intro h
    simp only [scan_lines, h a (by simp)]
    exact ih fun l hl => h l (by simp [hl])

/-- Line scan returns the diagnosis of the first line that matches some
signature, whatever follows it. -/
theorem scan_lines_first (sigs : List ErrorSig) :
    ∀ (pre : List String) (x : String) (rest : List String) (d : ErrorInfo),
      (∀ l ∈ pre, scan_sigs sigs l = none) → scan_sigs sigs x = some d →
      scan_lines sigs (pre ++ x :: rest) = some d := by
  intro pre
  induction pre with
  | nil => intro x rest d _ hx; simp [scan_lines, hx]
  | cons a t ih =>
    intro x rest d h hx
    simp only [List.cons_append, scan_lines, h a (by simp)]
    exact ih x rest d (fun l hl => h l (by simp [hl])) hx

/-- The launched-command trace of the build loop is the requested
environments in order, one compile command each. -/
theorem build_go_snd (pio_path : String) (exec : List String → ProcOutcome) :
    ∀ envs : List Env,
      (build_go pio_path exec envs).2
        = envs.map fun e => build_cmd pio_path e.name := by
  intro envs
  induction envs with
  | nil => rfl
  | cons env rest ih =>
    simp only [build_go, List.map]
    cases exec (build_cmd pio_path env.name) with
    | exn => simpa using ih
    | ok rc lines =>
      by_cases hrc : rc = 0 <;> simp [hrc, ih]

/-- Every environment reported successful by the build loop was
requested and its compile run exited with code zero. -/
theorem build_go_fst_mem (pio_path : String) (exec : List String → ProcOutcome) :
    ∀ (envs : List Env) (e : Env), e ∈ (build_go pio_path exec envs).1 →
      e ∈ envs ∧ ∃ lines, exec (build_cmd pio_path e.name) = ProcOutcome.ok 0 lines := by
  intro envs
  induction envs with
  | nil => intro e he; cases he
  | cons env rest ih =>
    intro e he
    simp only [build_go] at he
    cases hx : exec (build_cmd pio_path env.name) with
    | exn =>
      rw [hx] at he
      rcases ih e he with ⟨h1, h2⟩
      exact ⟨by simp [h1], h2⟩
    | ok rc lines =>
      rw [hx] at he
      by_cases hrc : rc = 0
      · subst hrc
        simp only [if_pos rfl] at he
        rcases List.mem_cons.mp he with h | h
        · subst h; exact ⟨by simp, lines, hx⟩
        · rcases ih e h with ⟨h1, h2⟩
          exact ⟨by simp [h1], h2⟩
      · simp only [if_neg hrc] at he
        rcases ih e he with ⟨h1, h2⟩
        exact ⟨by simp [h1], h2⟩

/-- The device-wait loop, when the scan never reports a candidate
before the deadline, runs to the deadline and fails. -/
theorem wait_loop_none (scan : Nat → List PortInfo) (timeout : Nat)
    (hscan : ∀ u, u < timeout → scan u = []) :
    ∀ (n t : Nat), timeout - t ≤ n → t ≤ timeout →
      wait_loop scan timeout t = (false, timeout) := by
  intro n
  induction n with
  | zero =>
    intro t h ht
    rw [wait_loop]
    have hnlt : ¬ t < timeout := by omega
    simp only [dif_neg hnlt]
    have : t = timeout := by omega
    rw [this]
  | succ n ih =>
    intro t h ht
    rw [wait_loop]
    by_cases hlt : t < timeout
    · simp only [dif_pos hlt, hscan t hlt, List.isEmpty_nil, if_pos rfl]
      exact ih (t + 1) (by omega) (by omega)
    · simp only [dif_neg hlt]
      have : t = timeout := by omega
      rw [this]

/-- Claim C5: on the flash stage table, a line matching the write
pattern with embedded percentage 42 sets the percentage to exactly
40 + round(42 * (90 - 40) / 100) = 61, whatever the prior state was
(the code computes 40 + int(42 * 0.5) = 61). -/
theorem flash_write_rescale_exact_42 (p : Nat) (s t : String) :
    (update_flash_progress "Writing at 0x10000... (42 %)" ⟨p, s⟩ t).1.percentage
      = 61 := rfl

/-- Claim C7: the build driver launches the compile subprocess exactly
once per requested target, sequentially in request order (the trace of
launched commands equals the mapped request list), and every
environment in the returned successful list was among the requested
ones. -/
theorem build_driver_launches_and_subset
    (envs : List Env) (pio_path : String) (exec : List String → ProcOutcome)
    (e : Env) :
    (build_project_with_progress envs pio_path exec).2
      = envs.map (fun x => build_cmd pio_path x.name)
    ∧ (e ∈ (build_project_with_progress envs pio_path exec).1 → e ∈ envs) := by
  unfold build_project_with_progress
  cases envs with
  | nil => simp
  | cons a l =>
    simp only [List.isEmpty_cons, Bool.false_eq_true, if_false]
    exact ⟨build_go_snd pio_path exec (a :: l),
           fun he => (build_go_fst_mem pio_path exec (a :: l) e he).1⟩

/-- Claim C8: if no candidate device is visible at any of the 30 polls
of the bounded device wait, the flash driver fails (returns False)
after exactly 30 polls without launching the upload command. -/
theorem flash_device_timeout_no_launch
    (env : Env) (pio_path : String) (scan : Nat → List PortInfo)
    (exec : List String → ProcOutcome)
    (hscan : ∀ t, t < 30 → scan t = []) :
    flash_target_with_progress (some env) pio_path scan exec
      = (false, [], 30) := by
  have hw : wait_for_device_connection scan = (false, 30) :=
    wait_loop_none scan 30 hscan 30 0 (by omega) (by omega)
  simp [flash_target_with_progress, wait_for_device_connection] at hw ⊢
  simp [hw]

/-- Witness for claim C8 at a concrete target and an always-empty scan. -/
theorem flash_device_timeout_no_launch_witness :
    flash_target_with_progress
        (some ⟨"esp32c3", "esp32-c3-devkitm-1", "espressif32"⟩)
        "platformio" (fun _ => []) (fun _ => ProcOutcome.ok 0 [])
      = (false, [], 30) :=
  flash_device_timeout_no_launch _ _ _ _ (fun _ _ => rfl)

/-- Claim C9: an exception while launching or supervising one target's
compile run is contained in the per-target loop: the failing target is
not reported successful, every requested target is still launched in
order, and the flash driver returns False (instead of raising) when
the upload run raises. -/
theorem driver_exception_containment :
    (∀ (envs : List Env) (pio_path : String)
       (exec : List String → ProcOutcome) (env : Env),
       exec (build_cmd pio_path env.name) = ProcOutcome.exn →
         env ∉ (build_project_with_progress envs pio_path exec).1
         ∧ (build_project_with_progress envs pio_path exec).2
             = envs.map (fun x => build_cmd pio_path x.name))
    ∧ (∀ (env : Env) (pio_path : String) (scan : Nat → List PortInfo)
         (exec : List String → ProcOutcome),
         exec (flash_cmd pio_path env.name) = ProcOutcome.exn →
           (flash_target_with_progress (some env) pio_path scan exec).1 = false) := by
  constructor
  · intro envs pio_path exec env hexn
    constructor
    · intro hmem
      unfold build_project_with_progress at hmem
      by_cases hne : envs.isEmpty
      · rw [if_pos hne] at hmem; cases hmem
      · rw [if_neg hne] at hmem
        rcases build_go_fst_mem pio_path exec envs env hmem with ⟨-, lines, hok⟩
        rw [hexn] at hok
        cases hok
    · exact (build_driver_launches_and_subset envs pio_path exec env).1
  · intro env pio_path scan exec hexn
    unfold flash_target_with_progress
    by_cases hw : (wait_for_device_connection scan).1
    · simp [hw, hexn]
    · simp [hw]

/-- Witness for claim C9: with an oracle that always raises, the single
requested target is not successful, it was still launched, and the
flash driver returns False. -/
theorem driver_exception_containment_witness :
    (⟨"esp32c3", "esp32-c3-devkitm-1", "espressif32"⟩ : Env)
        ∉ (build_project_with_progress
            [⟨"esp32c3", "esp32-c3-devkitm-1", "espressif32"⟩]
            "platformio" (fun _ => ProcOutcome.exn)).1
    ∧ (build_project_with_progress
          [⟨"esp32c3", "esp32-c3-devkitm-1", "espressif32"⟩]
          "platformio" (fun _ => ProcOutcome.exn)).2
        = ([⟨"esp32c3", "esp32-c3-devkitm-1", "espressif32"⟩] : List Env).map
            (fun x => build_cmd "platformio" x.name)
    ∧ (flash_target_with_progress
          (some ⟨"esp32c3", "esp32-c3-devkitm-1", "espressif32"⟩)
          "platformio" (fun _ => []) (fun _ => ProcOutcome.exn)).1 = false :=
  ⟨(driver_exception_containment.1 _ "platformio" _
      ⟨"esp32c3", "esp32-c3-devkitm-1", "espressif32"⟩ rfl).1,
   (driver_exception_containment.1 _ "platformio" _
      ⟨"esp32c3", "esp32-c3-devkitm-1", "espressif32"⟩ rfl).2,
   driver_exception_containment.2
      ⟨"esp32c3", "esp32-c3-devkitm-1", "espressif32"⟩ "platformio" _ _ rfl⟩

/-- Claim C10: degenerate inputs return the neutral value with no
subprocess launch: an empty build selection yields the empty success
list and no launches, and an absent flash target yields False with no
launches and no device polls. -/
theorem driver_degenerate_inputs
    (pio_path : String) (exec : List String → ProcOutcome)
    (scan : Nat → List PortInfo) :
    build_project_with_progress [] pio_path exec = ([], [])
    ∧ flash_target_with_progress none pio_path scan exec = (false, [], 0) :=
  ⟨rfl, rfl⟩

/-- Build progress stays within 100 whenever it starts within 100. -/
theorem build_progress_step_le (line : String) (st : ProgressState)
    (h : st.percentage ≤ 100) :
    (build_progress_step line st).percentage ≤ 100 := by
  simp only [build_progress_step]
  split_ifs <;> first | (dsimp only; omega) | omega

/-- Flash progress stays within 100 whenever it starts within 100 and
any write percentage carried by the line is at most 121. -/
theorem flash_progress_step_le (line : String) (st : ProgressState)
    (h : st.percentage ≤ 100)
    (hw : ∀ w, extractWritePercent line.data = some w → w ≤ 121) :
    (flash_progress_step line st).percentage ≤ 100 := by
  simp only [flash_progress_step]
  split_ifs <;> try first | (dsimp only; omega) | omega
  cases hE : extractWritePercent line.data with
  | none => dsimp only; omega
  | some w =>
    have := hw w hE
    dsimp only
    omega

/-- Claim C2 (amended): from any state with percentage at most 100,
both updaters keep the percentage an integer in 0..100 (naturals model
the lower bound) provided every write percentage captured from the
line is at most 121.  The proviso is necessary: the writing branch
computes 40 + N / 2 with no clamp, so N of 122 or more exceeds 100
(see the counterexample with N = 200). -/
theorem progress_percentage_bounded_amended :
    (∀ (line : String) (st : ProgressState) (name : String),
        st.percentage ≤ 100 →
        (update_build_progress line st name).1.percentage ≤ 100)
    ∧ (∀ (line : String) (st : ProgressState) (name : String),
        st.percentage ≤ 100 →
        (∀ w, extractWritePercent line.data = some w → w ≤ 121) →
        (update_flash_progress line st name).1.percentage ≤ 100) :=
  ⟨fun line st _ h => build_progress_step_le line st h,
   fun line st _ h hw => flash_progress_step_le line st h hw⟩

/-- Counterexample to claim C2 as stated: a write line reporting 200
percent drives the percentage from the initial state 0 to 140, beyond
the claimed 0..100 range. -/
theorem flash_write_overflow_cex :
    (update_flash_progress "Writing at 0x0... (200 %)" ⟨0, "Starting"⟩
        "esp32c3").1.percentage = 140
    ∧ ¬ (update_flash_progress "Writing at 0x0... (200 %)" ⟨0, "Starting"⟩
        "esp32c3").1.percentage ≤ 100 := by decide

/-- Witness for claim C2 (amended) on a concrete write line, with both
hypotheses discharged. -/
theorem progress_percentage_bounded_amended_witness :
    (update_flash_progress "Writing at 0x10000... (42 %)" ⟨0, "Starting"⟩
        "esp32c3").1.percentage ≤ 100 :=
  progress_percentage_bounded_amended.2 "Writing at 0x10000... (42 %)"
    ⟨0, "Starting"⟩ "esp32c3" (by decide)
    (by
      intro w hw
      have h42 : extractWritePercent ("Writing at 0x10000... (42 %)".data)
          = some 42 := by decide
      rw [h42] at hw
      injection hw with h
      omega)

/-- Exact decrease characterisation for the build chain, for every
state (no reachability assumption): the percentage drops if and only
if the first stage pattern the line matches, in table order, clamps to
a value below the current percentage (ceilings 15, 70, 85, 95 and the
fixed 100 of the completed stage). -/
theorem build_progress_step_decrease_iff (line : String) (st : ProgressState) :
    (build_progress_step line st).percentage < st.percentage ↔
      (reSearch dependency_pattern (prep_line line) = true
         ∧ 15 < st.percentage)
      ∨ (reSearch dependency_pattern (prep_line line) = false
         ∧ reSearch compiling_pattern (prep_line line) = true
         ∧ 70 < st.percentage)
      ∨ (reSearch dependency_pattern (prep_line line) = false
         ∧ reSearch compiling_pattern (prep_line line) = false
         ∧ reSearch linking_pattern (prep_line line) = true
         ∧ 85 < st.percentage)
      ∨ (reSearch dependency_pattern (prep_line line) = false
         ∧ reSearch compiling_pattern (prep_line line) = false
         ∧ reSearch linking_pattern (prep_line line) = false
         ∧ reSearch generating_pattern (prep_line line) = true
         ∧ 95 < st.percentage)
      ∨ (reSearch dependency_pattern (prep_line line) = false
         ∧ reSearch compiling_pattern (prep_line line) = false
         ∧ reSearch linking_pattern (prep_line line) = false
         ∧ reSearch generating_pattern (prep_line line) = false
         ∧ reSearch completed_pattern (prep_line line) = true
         ∧ 100 < st.percentage) := by
  simp only [build_progress_step]
  cases h1 : reSearch dependency_pattern (prep_line line) with
  | true => simp [h1]
  | false =>
  cases h2 : reSearch compiling_pattern (prep_line line) with
  | true => simp [h1, h2]; omega
  | false =>
  cases h3 : reSearch linking_pattern (prep_line line) with
  | true => simp [h1, h2, h3]; omega
  | false =>
  cases h4 : reSearch generating_pattern (prep_line line) with
  | true => simp [h1, h2, h3, h4]; omega
  | false =>
  cases h5 : reSearch completed_pattern (prep_line line) with
  | true => simp [h1, h2, h3, h4, h5]
  | false => simp [h1, h2, h3, h4, h5]

/-- Exact decrease characterisation for the flash chain, for every
state (no reachability assumption): the percentage drops if and only
if the first stage pattern the line matches, in table order, assigns a
value below the current percentage (10, 20, 30, 40, the rescaled
40 + N / 2 of the write stage for the captured percentage N, 95, and
the fixed 100 of the reset stage). -/
theorem flash_progress_step_decrease_iff (line : String) (st : ProgressState) :
    (flash_progress_step line st).percentage < st.percentage ↔
      (reSearch detecting_pattern line.data = true ∧ 10 < st.percentage)
      ∨ (reSearch detecting_pattern line.data = false
         ∧ reSearch connecting_pattern line.data = true
         ∧ 20 < st.percentage)
      ∨ (reSearch detecting_pattern line.data = false
         ∧ reSearch connecting_pattern line.data = false
         ∧ reSearch chip_info_pattern line.data = true
         ∧ 30 < st.percentage)
      ∨ (reSearch detecting_pattern line.data = false
         ∧ reSearch connecting_pattern line.data = false
         ∧ reSearch chip_info_pattern line.data = false
         ∧ reSearch erasing_pattern line.data = true
         ∧ 40 < st.percentage)
      ∨ (reSearch detecting_pattern line.data = false
         ∧ reSearch connecting_pattern line.data = false
         ∧ reSearch chip_info_pattern line.data = false
         ∧ reSearch erasing_pattern line.data = false
         ∧ reSearch writing_pattern line.data = true
         ∧ ∃ w, extractWritePercent line.data = some w
             ∧ 40 + w / 2 < st.percentage)
      ∨ (reSearch detecting_pattern line.data = false
         ∧ reSearch connecting_pattern line.data = false
         ∧ reSearch chip_info_pattern line.data = false
         ∧ reSearch erasing_pattern line.data = false
         ∧ reSearch writing_pattern line.data = false
         ∧ reSearch verification_pattern line.data = true
         ∧ 95 < st.percentage)
      ∨ (reSearch detecting_pattern line.data = false
         ∧ reSearch connecting_pattern line.data = false
         ∧ reSearch chip_info_pattern line.data = false
         ∧ reSearch erasing_pattern line.data = false
         ∧ reSearch writing_pattern line.data = false
         ∧ reSearch verification_pattern line.data = false
         ∧ reSearch reset_pattern line.data = true
         ∧ 100 < st.percentage) := by
  simp only [flash_progress_step]
  cases h1 : reSearch detecting_pattern line.data with
  | true => simp [h1]
  | false =>
  cases h2 : reSearch connecting_pattern line.data with
  | true => simp [h1, h2]
  | false =>
  cases h3 : reSearch chip_info_pattern line.data with
  | true => simp [h1, h2, h3]
  | false =>
  cases h4 : reSearch erasing_pattern line.data with
  | true => simp [h1, h2, h3, h4]
  | false =>
  cases h5 : reSearch writing_pattern line.data with
  | true =>
    cases hE : extractWritePercent line.data with
    | none => simp [h1, h2, h3, h4, h5, hE]
    | some w => simp [h1, h2, h3, h4, h5, hE]
  | false =>
  cases h6 : reSearch verification_pattern line.data with
  | true => simp [h1, h2, h3, h4, h5, h6]
  | false =>
  cases h7 : reSearch reset_pattern line.data with
  | true => simp [h1, h2, h3, h4, h5, h6, h7]
  | false => simp [h1, h2, h3, h4, h5, h6, h7]

/-- Claim C1 (amended): the percentage is not monotonically
non-decreasing; instead, for every state whatsoever (including the
over-100 states reachable through unclamped write lines), an update
decreases the percentage if and only if the first stage pattern the
line matches, in table order, yields a value strictly below the
current percentage: for the build table the stage ceilings 15
(dependency), 70 (compiling), 85 (linking), 95 (generating) and the
fixed 100 of the completed stage; for the flash table the fixed values
10, 20, 30, 40, the write rescale 40 + N / 2 for the percentage N
captured from a writing-pattern line, 95 (verification) and 100
(reset).  A line matching no pattern never changes the percentage. -/
theorem progress_decrease_iff_lower_stage :
    (∀ (line : String) (st : ProgressState) (name : String),
       (update_build_progress line st name).1.percentage < st.percentage ↔
       (reSearch dependency_pattern (prep_line line) = true
          ∧ 15 < st.percentage)
       ∨ (reSearch dependency_pattern (prep_line line) = false
          ∧ reSearch compiling_pattern (prep_line line) = true
          ∧ 70 < st.percentage)
       ∨ (reSearch dependency_pattern (prep_line line) = false
          ∧ reSearch compiling_pattern (prep_line line) = false
          ∧ reSearch linking_pattern (prep_line line) = true
          ∧ 85 < st.percentage)
       ∨ (reSearch dependency_pattern (prep_line line) = false
          ∧ reSearch compiling_pattern (prep_line line) = false
          ∧ reSearch linking_pattern (prep_line line) = false
          ∧ reSearch generating_pattern (prep_line line) = true
          ∧ 95 < st.percentage)
       ∨ (reSearch dependency_pattern (prep_line line) = false
          ∧ reSearch compiling_pattern (prep_line line) = false
          ∧ reSearch linking_pattern (prep_line line) = false
          ∧ reSearch generating_pattern (prep_line line) = false
          ∧ reSearch completed_pattern (prep_line line) = true
          ∧ 100 < st.percentage))
    ∧ (∀ (line : String) (st : ProgressState) (name : String),
       (update_flash_progress line st name).1.percentage < st.percentage ↔
       (reSearch detecting_pattern line.data = true ∧ 10 < st.percentage)
       ∨ (reSearch detecting_pattern line.data = false
          ∧ reSearch connecting_pattern line.data = true
          ∧ 20 < st.percentage)
       ∨ (reSearch detecting_pattern line.data = false
          ∧ reSearch connecting_pattern line.data = false
          ∧ reSearch chip_info_pattern line.data = true
          ∧ 30 < st.percentage)
       ∨ (reSearch detecting_pattern line.data = false
          ∧ reSearch connecting_pattern line.data = false
          ∧ reSearch chip_info_pattern line.data = false
          ∧ reSearch erasing_pattern line.data = true
          ∧ 40 < st.percentage)
       ∨ (reSearch detecting_pattern line.data = false
          ∧ reSearch connecting_pattern line.data = false
          ∧ reSearch chip_info_pattern line.data = false
          ∧ reSearch erasing_pattern line.data = false
          ∧ reSearch writing_pattern line.data = true
          ∧ ∃ w, extractWritePercent line.data = some w
              ∧ 40 + w / 2 < st.percentage)
       ∨ (reSearch detecting_pattern line.data = false
          ∧ reSearch connecting_pattern line.data = false
          ∧ reSearch chip_info_pattern line.data = false
          ∧ reSearch erasing_pattern line.data = false
          ∧ reSearch writing_pattern line.data = false
          ∧ reSearch verification_pattern line.data = true
          ∧ 95 < st.percentage)
       ∨ (reSearch detecting_pattern line.data = false
          ∧ reSearch connecting_pattern line.data = false
          ∧ reSearch chip_info_pattern line.data = false
          ∧ reSearch erasing_pattern line.data = false
          ∧ reSearch writing_pattern line.data = false
          ∧ reSearch verification_pattern line.data = false
          ∧ reSearch reset_pattern line.data = true
          ∧ 100 < st.percentage)) :=
  ⟨fun line st _ => build_progress_step_decrease_iff line st,
   fun line st _ => flash_progress_step_decrease_iff line st⟩

/-- Counterexample to claim C1 as stated: two compiling lines bring the
build percentage from 0 to the reachable value 18, after which a
dependency line regresses it to 15; likewise, from the reachable flash
state 140 (one unclamped 200-percent write line from 0), a reset line
regresses the percentage to 100. -/
theorem progress_percentage_regression_cex :
    (update_build_progress "Compiling a.cpp"
        ((update_build_progress "Compiling a.cpp" ⟨0, "Starting"⟩ "esp32c3").1)
        "esp32c3").1.percentage = 18
    ∧ (update_build_progress "Installing dependencies" ⟨18, "Compiling"⟩
        "esp32c3").1.percentage = 15
    ∧ (update_flash_progress "Writing at 0x0... (200 %)" ⟨0, "Starting"⟩
        "esp32c3").1.percentage = 140
    ∧ (update_flash_progress "Hard resetting via RTS pin"
        ⟨140, "Writing (200%)"⟩ "esp32c3").1.percentage = 100 := by decide

/-- Witness for claim C1 (amended): the dependency disjunct of the
biconditional, instantiated at the concrete regressing input, forces
the decrease from 18 to 15. -/
theorem progress_decrease_iff_lower_stage_witness :
    (update_build_progress "Installing dependencies" ⟨18, "Compiling"⟩
        "esp32c3").1.percentage < 18 :=
  (progress_decrease_iff_lower_stage.1 "Installing dependencies"
      ⟨18, "Compiling"⟩ "esp32c3").mpr (Or.inl ⟨by decide, by decide⟩)

/-- Claim C6 (amended): a report to the rendering boundary is emitted
exactly when the percentage changed, and it always carries the
name-and-stage label with the new percentage; an update that changes
only the stage label emits nothing (see the counterexample). -/
theorem progress_report_iff_percentage_change :
    (∀ (line : String) (st : ProgressState) (name : String),
       ((update_build_progress line st name).2 = none
          ↔ (update_build_progress line st name).1.percentage = st.percentage)
       ∧ ∀ r : Report, (update_build_progress line st name).2 = some r →
           r = (name ++ " - " ++ (update_build_progress line st name).1.stage,
                (update_build_progress line st name).1.percentage))
    ∧ (∀ (line : String) (st : ProgressState) (name : String),
       ((update_flash_progress line st name).2 = none
          ↔ (update_flash_progress line st name).1.percentage = st.percentage)
       ∧ ∀ r : Report, (update_flash_progress line st name).2 = some r →
           r = (name ++ " - " ++ (update_flash_progress line st name).1.stage,
                (update_flash_progress line st name).1.percentage)) :=
  ⟨fun line st name => report_aux (build_progress_step line st) st.percentage name,
   fun line st name => report_aux (flash_progress_step line st) st.percentage name⟩

/-- Counterexample to claim C6 as stated: an erase state followed by a
write line at zero percent changes the stage label but not the
percentage, and no report is emitted. -/
theorem stage_change_without_report_cex :
    (update_flash_progress "Writing at 0x0... (0 %)" ⟨40, "Erasing flash"⟩
        "esp32c3").1.stage = "Writing (0%)"
    ∧ (update_flash_progress "Writing at 0x0... (0 %)" ⟨40, "Erasing flash"⟩
        "esp32c3").2 = none := by decide

/-- Witness for claim C6 (amended) on a concrete emitted report. -/
theorem progress_report_iff_percentage_change_witness :
    ("esp32c3 - Compiling", (15 : Nat))
      = ("esp32c3" ++ " - "
           ++ (update_build_progress "Compiling a.cpp" ⟨0, "Starting"⟩
                 "esp32c3").1.stage,
         (update_build_progress "Compiling a.cpp" ⟨0, "Starting"⟩
             "esp32c3").1.percentage) :=
  (progress_report_iff_percentage_change.1 "Compiling a.cpp" ⟨0, "Starting"⟩
      "esp32c3").2 ("esp32c3 - Compiling", 15) (by decide)

/-- Claim C4 (amended): a port with empty description, empty hardware
id, no vendor id, and an OS path outside the USB-serial, ACM and COM
naming conventions is rejected by every rule and never appears in the
candidate set.  The extra restrictions are necessary: the empty
description is normalised to the text Unknown, which differs from the
n/a placeholder, so a path such as /dev/ttyUSB0 is accepted by the
path rule even with empty description and hardware id (see the
counterexample), and an allow-listed vendor id accepts the port
regardless of description and hardware id. -/
theorem device_classifier_reject_empty_amended
    (p : Port) (ports : List Port)
    (hdesc : p.description = "") (hhwid : p.hwid = "") (hvid : p.vid = none)
    (h1 : isPfx "/dev/ttyUSB".data p.device.data = false)
    (h2 : isPfx "/dev/ttyACM".data p.device.data = false)
    (h3 : isPfx "COM".data p.device.data = false) :
    is_esp_device (port_info_of p) = false
    ∧ port_info_of p ∉ detect_serial_devices ports := by
  have hinfo : port_info_of p = ⟨p.device, "Unknown", "", none, p.pid⟩ := by
    simp [port_info_of, hdesc, hhwid, hvid]
  have hsub : (esp_patterns.any fun pat =>
      containsSub (lowerStr "Unknown") pat.data
        || containsSub (lowerStr "") pat.data) = false := by decide
  have hcls : is_esp_device (port_info_of p) = false := by
    rw [hinfo]
    simp only [is_esp_device]
    simp [hsub, h1, h2, h3]
  refine ⟨hcls, fun hmem => ?_⟩
  simp only [detect_serial_devices] at hmem
  rcases List.mem_filter.mp hmem with ⟨-, htrue⟩
  rw [hcls] at htrue
  cases htrue

/-- Counterexample to claim C4 as stated: a port at /dev/ttyUSB0 with
empty description and empty hardware id (and no vendor id) is accepted
by the path rule, because the normalised description Unknown differs
from the n/a placeholder, and so appears in the candidate set. -/
theorem device_classifier_empty_accepted_cex :
    is_esp_device (port_info_of ⟨"/dev/ttyUSB0", "", "", none, none⟩) = true
    ∧ port_info_of ⟨"/dev/ttyUSB0", "", "", none, none⟩
        ∈ detect_serial_devices [⟨"/dev/ttyUSB0", "", "", none, none⟩] := by
  decide

/-- Witness for claim C4 (amended) on a concrete non-convention port. -/
theorem device_classifier_reject_empty_amended_witness :
    is_esp_device (port_info_of ⟨"/dev/ttyS0", "", "", none, none⟩) = false
    ∧ port_info_of ⟨"/dev/ttyS0", "", "", none, none⟩
        ∉ detect_serial_devices [⟨"/dev/ttyS0", "", "", none, none⟩] :=
  device_classifier_reject_empty_amended _ _ rfl rfl rfl
    (by decide) (by decide) (by decide)

/-- Claim C3: both error classifiers return the diagnosis of the first
match in line-major order: no diagnosis when no line matches any
signature; the first line with a matching signature decides whatever
follows; within one line the signatures are tried in table order
(missing-library, then compilation-error, then permission-denied for
the build table; device-not-found, then connection-timeout, then
permission-denied for the flash table); and on the concrete logs of
the claim, an earlier permission-denied line beats a later
missing-library line, while a single line matching both the
missing-library and compilation-error signatures is classified as
missing-library, the earlier table entry. -/
theorem error_classifier_first_match_line_major :
    (∀ log : List String, (∀ l ∈ log, scan_sigs ERROR_PATTERNS l = none) →
       detect_build_errors log = none)
    ∧ (∀ (pre : List String) (x : String) (rest : List String) (d : ErrorInfo),
       (∀ l ∈ pre, scan_sigs ERROR_PATTERNS l = none) →
       scan_sigs ERROR_PATTERNS x = some d →
       detect_build_errors (pre ++ x :: rest) = some d)
    ∧ (∀ log : List String, (∀ l ∈ log, scan_sigs FLASH_ERROR_PATTERNS l = none) →
       detect_flash_errors log = none)
    ∧ (∀ (pre : List String) (x : String) (rest : List String) (d : ErrorInfo),
       (∀ l ∈ pre, scan_sigs FLASH_ERROR_PATTERNS l = none) →
       scan_sigs FLASH_ERROR_PATTERNS x = some d →
       detect_flash_errors (pre ++ x :: rest) = some d)
    ∧ (∀ line : String,
       (reSearch missing_library_sig.pat (prep_line line) = true →
          scan_sigs ERROR_PATTERNS line
            = some (render_error missing_library_sig line))
       ∧ (reSearch missing_library_sig.pat (prep_line line) = false →
          reSearch compilation_error_sig.pat (prep_line line) = true →
          scan_sigs ERROR_PATTERNS line
            = some (render_error compilation_error_sig line))
       ∧ (reSearch missing_library_sig.pat (prep_line line) = false →
          reSearch compilation_error_sig.pat (prep_line line) = false →
          reSearch permission_denied_sig.pat (prep_line line) = true →
          scan_sigs ERROR_PATTERNS line
            = some (render_error permission_denied_sig line))
       ∧ (reSearch missing_library_sig.pat (prep_line line) = false →
          reSearch compilation_error_sig.pat (prep_line line) = false →
          reSearch permission_denied_sig.pat (prep_line line) = false →
          scan_sigs ERROR_PATTERNS line = none))
    ∧ (∀ line : String,
       (reSearch device_not_found_sig.pat (prep_line line) = true →
          scan_sigs FLASH_ERROR_PATTERNS line
            = some (render_error device_not_found_sig line))
       ∧ (reSearch device_not_found_sig.pat (prep_line line) = false →
          reSearch connection_timeout_sig.pat (prep_line line) = true →
          scan_sigs FLASH_ERROR_PATTERNS line
            = some (render_error connection_timeout_sig line))
       ∧ (reSearch device_not_found_sig.pat (prep_line line) = false →
          reSearch connection_timeout_sig.pat (prep_line line) = false →
          reSearch flash_permission_denied_sig.pat (prep_line line) = true →
          scan_sigs FLASH_ERROR_PATTERNS line
            = some (render_error flash_permission_denied_sig line))
       ∧ (reSearch device_not_found_sig.pat (prep_line line) = false →
          reSearch connection_timeout_sig.pat (prep_line line) = false →
          reSearch flash_permission_denied_sig.pat (prep_line line) = false →
          scan_sigs FLASH_ERROR_PATTERNS line = none))
    ∧ detect_build_errors ["Permission denied", "fatal error: foo.h: No such file"]
        = some (render_error permission_denied_sig "Permission denied")
    ∧ detect_build_errors ["fatal error: foo.h: No such file"]
        = some (render_error missing_library_sig "fatal error: foo.h: No such file") := by
  refine ⟨scan_lines_none ERROR_PATTERNS,
          scan_lines_first ERROR_PATTERNS,
          scan_lines_none FLASH_ERROR_PATTERNS,
          scan_lines_first FLASH_ERROR_PATTERNS,
          fun line => ⟨?_, ?_, ?_, ?_⟩,
          fun line => ⟨?_, ?_, ?_, ?_⟩,
          by decide, by decide⟩
  · intro hm; simp [scan_sigs, ERROR_PATTERNS, hm]
  · intro hm hc; simp [scan_sigs, ERROR_PATTERNS, hm, hc]
  · intro hm hc hp; simp [scan_sigs, ERROR_PATTERNS, hm, hc, hp]
  · intro hm hc hp; simp [scan_sigs, ERROR_PATTERNS, hm, hc, hp]
  · intro hd; simp [scan_sigs, FLASH_ERROR_PATTERNS, hd]
  · intro hd hc; simp [scan_sigs, FLASH_ERROR_PATTERNS, hd, hc]
  · intro hd hc hp; simp [scan_sigs, FLASH_ERROR_PATTERNS, hd, hc, hp]
  · intro hd hc hp; simp [scan_sigs, FLASH_ERROR_PATTERNS, hd, hc, hp]

/-- Witness for claim C3: the line-major rule applied to a concrete log
with a clean first line, a permission-denied second line and a
missing-library third line. -/
theorem error_classifier_first_match_line_major_witness :
    detect_build_errors
        (["All good so far"] ++ "Permission denied"
           :: ["fatal error: foo.h: No such file"])
      = some (render_error permission_denied_sig "Permission denied") :=
  error_classifier_first_match_line_major.2.1
    ["All good so far"] "Permission denied"
    ["fatal error: foo.h: No such file"]
    (render_error permission_denied_sig "Permission denied")
    (by decide) (by decide)

/-- Witness for claim C7 on a single concrete target whose compile run
succeeds. -/
theorem build_driver_launches_and_subset_witness :
    (build_project_with_progress [⟨"esp32c3", "esp32-c3-devkitm-1", "espressif32"⟩]
        "platformio" (fun _ => ProcOutcome.ok 0 [])).2
      = ([⟨"esp32c3", "esp32-c3-devkitm-1", "espressif32"⟩] : List Env).map
          (fun x => build_cmd "platformio" x.name)
    ∧ (⟨"esp32c3", "esp32-c3-devkitm-1", "espressif32"⟩ : Env)
        ∈ [(⟨"esp32c3", "esp32-c3-devkitm-1", "espressif32"⟩ : Env)] :=
  ⟨(build_driver_launches_and_subset
      [⟨"esp32c3", "esp32-c3-devkitm-1", "espressif32"⟩] "platformio"
      (fun _ => ProcOutcome.ok 0 [])
      ⟨"esp32c3", "esp32-c3-devkitm-1", "espressif32"⟩).1,
   (build_driver_launches_and_subset
      [⟨"esp32c3", "esp32-c3-devkitm-1", "espressif32"⟩] "platformio"
      (fun _ => ProcOutcome.ok 0 [])
      ⟨"esp32c3", "esp32-c3-devkitm-1", "espressif32"⟩).2 (by decide)⟩
